import Mathlib

/-!
Shallow embedding of the credit-ledger and lifecycle-coordinator core of the
wikiwands cloud functions repository.

The ledger operations (credits.ts) are modelled as pure transformations of a
per-user store state: `Option CreditsDoc` is the Firestore document for one
uid (`none` means the document does not exist).  A Firestore transaction that
throws leaves the document untouched, so fallible operations return `Except`
and the caller keeps the old state on an error.  Timestamps are modelled as
naturals; the server timestamp taken during an operation is passed in as the
`now` argument.  JavaScript numbers in the documents are modelled as `Int`.
-/

/-! ## Data model (types.ts, credits.ts) -/

abbrev Time := Nat

/-- The credits document stored per user (CreditsDoc in types.ts).
`last_gift_reset` is optional in the document; `updatedAt` is always set. -/
structure CreditsDoc where
  gift_credit : Int
  paid_credit : Int
  last_gift_reset : Option Time
  updatedAt : Time
deriving Repr, DecidableEq

/-- The constant MONTHLY_GIFT_CREDIT from CREDIT_CONSTANTS in types.ts. -/
def MONTHLY_GIFT_CREDIT : Int := 10

/-- The constant NON_SUBSCRIPTION_PURCHASE_CREDIT from CREDIT_CONSTANTS in types.ts. -/
def NON_SUBSCRIPTION_PURCHASE_CREDIT : Int := 10

/-- The constant USE_CREDITS_AMOUNT from CREDIT_CONSTANTS in types.ts. -/
def USE_CREDITS_AMOUNT : Int := 5

/-- Typed failures of the ledger: the not-found and failed-precondition
HttpsError codes thrown by credits.ts. -/
inductive CreditError where
  | notFound
  | insufficientCredit
deriving Repr, DecidableEq

/-! ## Ledger operations (credits.ts) -/

/-- Embeds getOrCreateCreditsDoc: returns the existing document, or the
initial document with both counters at 0 (which the caller then persists). -/
def getOrCreateCreditsDoc (store : Option CreditsDoc) (now : Time) : CreditsDoc :=
  match store with
  | some doc => doc
  | none =>
      { gift_credit := 0
        paid_credit := 0
        last_gift_reset := none
        updatedAt := now }

/-- Embeds resetGiftCredit: creates the document with gift_credit at
MONTHLY_GIFT_CREDIT when absent, otherwise overwrites gift_credit with
MONTHLY_GIFT_CREDIT; stamps last_gift_reset and updatedAt in both branches. -/
def resetGiftCredit (store : Option CreditsDoc) (now : Time) : CreditsDoc :=
  match store with
  | none =>
      { gift_credit := MONTHLY_GIFT_CREDIT
        paid_credit := 0
        last_gift_reset := some now
        updatedAt := now }
  | some doc =>
      { doc with
        gift_credit := MONTHLY_GIFT_CREDIT
        last_gift_reset := some now
        updatedAt := now }

/-- Embeds clearGiftCredit: creates the document with gift_credit at 0 when
absent (without last_gift_reset), otherwise overwrites gift_credit with 0 and
stamps updatedAt; paid_credit is never touched on the update branch. -/
def clearGiftCredit (store : Option CreditsDoc) (now : Time) : CreditsDoc :=
  match store with
  | none =>
      { gift_credit := 0
        paid_credit := 0
        last_gift_reset := none
        updatedAt := now }
  | some doc =>
      { doc with
        gift_credit := 0
        updatedAt := now }

/-- Embeds addPaidCredit: creates the document with paid_credit at amount when
absent, otherwise increments paid_credit by amount and stamps updatedAt. -/
def addPaidCredit (store : Option CreditsDoc) (amount : Int) (now : Time) : CreditsDoc :=
  match store with
  | none =>
      { gift_credit := 0
        paid_credit := amount
        last_gift_reset := none
        updatedAt := now }
  | some doc =>
      { doc with
        paid_credit := doc.paid_credit + amount
        updatedAt := now }

/-- The result object returned by useCredits in credits.ts. -/
structure UseResult where
  success : Bool
  usedGift : Int
  usedPaid : Int
  remaining : Int
deriving Repr, DecidableEq

/-- Embeds useCredits: throws not-found when the document is absent, throws
failed-precondition (insufficient credits) when gift + paid < amount.
Otherwise drains the gift bucket first, then the paid bucket, updating only
the fields whose used amount is positive, and stamps updatedAt. -/
def useCredits (store : Option CreditsDoc) (amount : Int) (now : Time) :
    Except CreditError (CreditsDoc × UseResult) :=
  match store with
  | none => .error .notFound
  | some doc =>
      let currentGift := doc.gift_credit
      let currentPaid := doc.paid_credit
      let total := currentGift + currentPaid
      if total < amount then
        .error .insufficientCredit
      else
        let usedGift : Int := if currentGift > 0 then min currentGift amount else 0
        let remaining : Int := amount - usedGift
        let usedPaid : Int :=
          if remaining > 0 ∧ currentPaid > 0 then min currentPaid remaining else 0
        let doc1 := { doc with updatedAt := now }
        let doc2 :=
          if usedGift > 0 then { doc1 with gift_credit := currentGift - usedGift } else doc1
        let doc3 :=
          if usedPaid > 0 then { doc2 with paid_credit := currentPaid - usedPaid } else doc2
        .ok (doc3,
          { success := true
            usedGift := usedGift
            usedPaid := usedPaid
            remaining := 0 })

/-- Runs useCredits as a transaction on the store: on an error the
transaction aborts and the document is unchanged. -/
def useCreditsRun (store : Option CreditsDoc) (amount : Int) (now : Time) :
    Option CreditsDoc :=
  match useCredits store amount now with
  | .ok (doc, _) => some doc
  | .error _ => store

/-- Embeds refundCredits: throws not-found when the document is absent,
otherwise sets paid_credit to max 0 (paid_credit - amount) and stamps
updatedAt; gift_credit is never touched. -/
def refundCredits (store : Option CreditsDoc) (amount : Int) (now : Time) :
    Except CreditError CreditsDoc :=
  match store with
  | none => .error .notFound
  | some doc =>
      .ok { doc with
            paid_credit := max 0 (doc.paid_credit - amount)
            updatedAt := now }

/-- Runs refundCredits as a transaction on the store: on an error the
document is unchanged. -/
def refundCreditsRun (store : Option CreditsDoc) (amount : Int) (now : Time) :
    Option CreditsDoc :=
  match refundCredits store amount now with
  | .ok doc => some doc
  | .error _ => store

example : useCredits (some ⟨3, 4, none, 0⟩) 5 7 =
    .ok (⟨0, 2, none, 7⟩, ⟨true, 3, 2, 0⟩) := by rfl

example : useCredits (some ⟨3, 1, none, 0⟩) 5 7 = .error .insufficientCredit := by rfl

example : useCredits none 5 7 = .error .notFound := by rfl

example : refundCredits (some ⟨3, 3, none, 0⟩) 5 7 = .ok ⟨3, 0, none, 7⟩ := by rfl

/-! ## Entitlement diff engine (onEntitlementActivated.ts)

An entitlement record is loosely typed in the source.  The fields the engine
reads are `is_active` (used only when it is literally a boolean) and
`expires_date`.  `expires_date` is modelled as `Option (Option Int)`: the
outer `none` is an absent, null or empty (falsy) value; `some none` is a
present string that does not parse to a date (an invalid date compares false
against now in JavaScript); `some (some t)` is a present string parsing to
the instant `t`.  Snapshots are association lists keyed by entitlement key;
JavaScript objects never repeat a key, so theorems assume key lists have no
duplicates. -/

/-- The fields of one entitlement record read by the diff engine. -/
structure EntitlementRecord where
  is_active : Option Bool
  expires_date : Option (Option Int)
deriving Repr, DecidableEq

/-- A snapshot of the per-user entitlements map. -/
abbrev Snapshot := List (String × EntitlementRecord)

/-- Looks a key up in an association-list model of a JS object (first
binding wins; JS objects never repeat a key). -/
def lookupKey {α : Type} : List (String × α) → String → Option α
  | [], _ => none
  | (k, v) :: rest, key => if k = key then some v else lookupKey rest key

/-- Looks a key up in an entitlement snapshot. -/
def lookupEnt (s : Snapshot) (key : String) : Option EntitlementRecord :=
  lookupKey s key

/-- Embeds isEntitlementActive: the explicit is_active boolean wins when
present; otherwise a falsy expires_date is inactive and a present one is
active iff it parses to an instant strictly later than now (an unparsable
date is inactive, and nothing throws). -/
def isEntitlementActive (e : EntitlementRecord) (now : Int) : Bool :=
  match e.is_active with
  | some b => b
  | none =>
      match e.expires_date with
      | none => false
      | some none => false
      | some (some expiry) => now < expiry

/-- Whether the key was active in the before snapshot; an absent key counts
as inactive (the wasActive computation in the loop over after). -/
def wasActiveBefore (before : Snapshot) (now : Int) (key : String) : Bool :=
  match lookupEnt before key with
  | some e => isEntitlementActive e now
  | none => false

/-- Keys pushed onto activatedEntitlements by the loop over after: now
active and not active before. -/
def activatedEntitlements (before after : Snapshot) (now : Int) : List String :=
  (after.filter fun kv =>
    isEntitlementActive kv.2 now && !wasActiveBefore before now kv.1).map Prod.fst

/-- Keys pushed onto expiredEntitlements by the loop over after: not active
now but active before. -/
def expiredFromAfter (before after : Snapshot) (now : Int) : List String :=
  (after.filter fun kv =>
    !isEntitlementActive kv.2 now && wasActiveBefore before now kv.1).map Prod.fst

/-- Keys pushed onto expiredEntitlements by the deletion loop over before:
absent from after and active before. -/
def expiredFromRemoval (before after : Snapshot) (now : Int) : List String :=
  (before.filter fun kv =>
    (lookupEnt after kv.1).isNone && isEntitlementActive kv.2 now).map Prod.fst

/-- All keys collected in expiredEntitlements over both loops. -/
def expiredEntitlements (before after : Snapshot) (now : Int) : List String :=
  expiredFromAfter before after now ++ expiredFromRemoval before after now

/-! ## Lifecycle coordinator (onEntitlementActivated.ts, tail) -/

/-- The two ledger calls the entitlement handler can make. -/
inductive LedgerCall where
  | resetGift
  | clearGift
deriving Repr, DecidableEq

/-- The sequence of ledger calls made by the handler: resetGiftCredit when
hasNewlyActivated, then clearGiftCredit when hasExpired. -/
def lifecycleCalls (before after : Snapshot) (now : Int) : List LedgerCall :=
  (if activatedEntitlements before after now ≠ [] then [LedgerCall.resetGift] else []) ++
  (if expiredEntitlements before after now ≠ [] then [LedgerCall.clearGift] else [])

/-- Applies one ledger call to the store. -/
def applyCall (store : Option CreditsDoc) (now : Time) : LedgerCall → CreditsDoc
  | .resetGift => resetGiftCredit store now
  | .clearGift => clearGiftCredit store now

/-- Runs a sequence of ledger calls against the store. -/
def runCalls (store : Option CreditsDoc) (now : Time) : List LedgerCall → Option CreditsDoc
  | [] => store
  | c :: rest => runCalls (some (applyCall store now c)) now rest

/-! ## Purchase diff engine (onNonSubscriptionPurchase.ts)

Purchase records carry an `id` and a `store_transaction_id`; either may be
absent or falsy, modelled as `Option String` with `none` for a falsy value,
so that the JavaScript or-chain becomes the first present field. -/

/-- The fields of one purchase record read by the handler. -/
structure PurchaseRecord where
  id : Option String
  store_transaction_id : Option String
deriving Repr, DecidableEq

/-- A snapshot of the non_subscriptions map: product key to ordered list of
purchase records. -/
abbrev PurchaseSnapshot := List (String × List PurchaseRecord)

/-- Looks up the purchase list for a product key; an absent key is the empty
list (the or-empty default in the source). -/
def lookupPurchases (s : PurchaseSnapshot) (key : String) : List PurchaseRecord :=
  (lookupKey s key).getD []

/-- The purchase identifier surfaced for a record: id, falling back to
store_transaction_id, possibly absent. -/
def identifierOf (r : PurchaseRecord) : Option String :=
  match r.id with
  | some i => some i
  | none => r.store_transaction_id

/-- One detected new purchase. -/
structure NewPurchase where
  productId : String
  purchaseId : Option String
deriving Repr, DecidableEq

/-- Embeds the detection loop: for every product key of after whose list got
strictly longer than the before list (or empty), emit one event carrying the
identifier of the last element of the after list. -/
def newPurchases (before after : PurchaseSnapshot) : List NewPurchase :=
  after.filterMap fun kv =>
    if (lookupPurchases before kv.1).length < kv.2.length then
      kv.2.getLast?.map fun latest =>
        { productId := kv.1, purchaseId := identifierOf latest }
    else
      none

/-- Embeds the credit loop: addPaidCredit with the default amount
NON_SUBSCRIPTION_PURCHASE_CREDIT once per detected new purchase. -/
def processNewPurchases (now : Time) :
    Option CreditsDoc → List NewPurchase → Option CreditsDoc
  | store, [] => store
  | store, _ :: rest =>
      processNewPurchases now
        (some (addPaidCredit store NON_SUBSCRIPTION_PURCHASE_CREDIT now)) rest

/-! ## Ledger operations as a single step type -/

/-- One invocation of a ledger operation, with the amount where one is
taken. -/
inductive LedgerOp where
  | getOrCreate
  | consume (amount : Int)
  | addPaid (amount : Int)
  | resetGift
  | clearGift
  | refund (amount : Int)
deriving Repr, DecidableEq

/-- The spec precondition of each operation: a positive amount where an
amount is taken. -/
def opPre : LedgerOp → Prop
  | .consume amount => 0 < amount
  | .addPaid amount => 0 < amount
  | .refund amount => 0 < amount
  | _ => True

/-- Applies one ledger operation to the per-user store; fallible operations
leave the store unchanged on an error. -/
def applyOp (store : Option CreditsDoc) (now : Time) : LedgerOp → Option CreditsDoc
  | .getOrCreate => some (getOrCreateCreditsDoc store now)
  | .consume amount => useCreditsRun store amount now
  | .addPaid amount => some (addPaidCredit store amount now)
  | .resetGift => some (resetGiftCredit store now)
  | .clearGift => some (clearGiftCredit store now)
  | .refund amount => refundCreditsRun store amount now

/-- Both counters of the stored document are non-negative (vacuous when the
document does not exist). -/
def storeNonneg : Option CreditsDoc → Prop
  | none => True
  | some doc => 0 ≤ doc.gift_credit ∧ 0 ≤ doc.paid_credit

example :
    newPurchases [("P", [⟨some "x", none⟩])] [("P", [⟨some "x", none⟩, ⟨none, some "y"⟩])] =
      [⟨"P", some "y"⟩] := by rfl

example : newPurchases [("P", [⟨some "x", none⟩])] [("P", [⟨some "x", none⟩])] = [] := by rfl

example :
    activatedEntitlements [] [("A", ⟨none, some (some 9)⟩)] 5 = ["A"] := by rfl

example :
    expiredEntitlements [("A", ⟨none, some (some 9)⟩)] [] 5 = ["A"] := by rfl

example :
    expiredEntitlements [("A", ⟨none, some (some 9)⟩)] [("A", ⟨none, some (some 3)⟩)] 5 =
      ["A"] := by rfl

/-! ## Helper lemmas on association-list lookup -/

theorem lookupKey_eq_some {α : Type} {s : List (String × α)} {k : String} {v : α}
    (hnd : (s.map Prod.fst).Nodup) :
    lookupKey s k = some v ↔ (k, v) ∈ s := by
  induction s with
  | nil => simp [lookupKey]
  | cons kv rest ih =>
      obtain ⟨k1, v1⟩ := kv
      rw [List.map_cons, List.nodup_cons] at hnd
      constructor
      · intro h
        simp only [lookupKey] at h
        by_cases hk : k1 = k
        · rw [if_pos hk] at h
          injection h with h
          subst hk
          subst h
          exact List.mem_cons_self _ _
        · rw [if_neg hk] at h
          exact List.mem_cons_of_mem _ ((ih hnd.2).mp h)
      · intro h
        rcases List.mem_cons.mp h with heq | hm
        · cases heq
          simp [lookupKey]
        · have hk : k1 ≠ k := by
            intro hkk
            subst hkk
            exact hnd.1 (List.mem_map.mpr ⟨(k1, v), hm, rfl⟩)
          simp only [lookupKey, if_neg hk]
          exact (ih hnd.2).mpr hm

theorem lookupKey_eq_none {α : Type} {s : List (String × α)} {k : String} :
    lookupKey s k = none ↔ k ∉ s.map Prod.fst := by
  induction s with
  | nil => simp [lookupKey]
  | cons kv rest ih =>
      obtain ⟨k1, v1⟩ := kv
      simp only [lookupKey, List.map_cons, List.mem_cons]
      by_cases hk : k1 = k
      · subst hk
        simp
      · rw [if_neg hk, ih]
        constructor
        · intro hnm hor
          rcases hor with rfl | hmem
          · exact hk rfl
          · exact hnm hmem
        · intro h hmem
          exact h (Or.inr hmem)

theorem mem_filter_keys {α : Type} {s : List (String × α)} {p : String × α → Bool} {k : String}
    (hnd : (s.map Prod.fst).Nodup) :
    k ∈ (s.filter p).map Prod.fst ↔ ∃ v, lookupKey s k = some v ∧ p (k, v) = true := by
  simp only [List.mem_map, List.mem_filter]
  constructor
  · rintro ⟨⟨k1, v⟩, ⟨hmem, hp⟩, hk⟩
    simp only at hk
    subst hk
    exact ⟨v, (lookupKey_eq_some hnd).mpr hmem, hp⟩
  · rintro ⟨v, hl, hp⟩
    exact ⟨(k, v), ⟨(lookupKey_eq_some hnd).mp hl, hp⟩, rfl⟩

/-! ## Claim theorems: the credit ledger -/

/-- C1: for every balance with gift, paid >= 0 and every amount with
0 < amount <= gift + paid, Consume succeeds with usedGift = min gift amount
and usedPaid = amount - usedGift, the gift bucket drops by usedGift, the
paid bucket by usedPaid, so the total drops by exactly amount: the gift
bucket is always drained before the paid bucket. -/
theorem useCredits_consume_spec (doc : CreditsDoc) (amount : Int) (now : Time)
    (hg : 0 ≤ doc.gift_credit) (hp : 0 ≤ doc.paid_credit)
    (h0 : 0 < amount) (hle : amount ≤ doc.gift_credit + doc.paid_credit) :
    ∃ doc', useCredits (some doc) amount now =
        .ok (doc',
          { success := true
            usedGift := min doc.gift_credit amount
            usedPaid := amount - min doc.gift_credit amount
            remaining := 0 }) ∧
      doc'.gift_credit = doc.gift_credit - min doc.gift_credit amount ∧
      doc'.paid_credit = doc.paid_credit - (amount - min doc.gift_credit amount) ∧
      doc'.gift_credit + doc'.paid_credit = doc.gift_credit + doc.paid_credit - amount := by
  obtain ⟨g, p, l, u⟩ := doc
  simp only at hg hp hle
  refine ⟨⟨g - min g amount, p - (amount - min g amount), l, now⟩, ?_,
    rfl, rfl, show g - min g amount + (p - (amount - min g amount)) = g + p - amount by omega⟩
  simp only [useCredits]
  split_ifs with h1 h2 h3 h4 h5 h6 h7 h8 h9 h10 h11 <;>
    first
      | omega
      | (simp_all only [Except.ok.injEq, Prod.mk.injEq, CreditsDoc.mk.injEq,
           UseResult.mk.injEq, eq_self_iff_true, and_true, true_and, not_lt, not_and, not_le]
         omega)

/-- Witness for C1 at gift = 3, paid = 4, amount = 5. -/
theorem useCredits_consume_spec_witness :
    ∃ doc', useCredits (some ⟨3, 4, none, 0⟩) 5 7 =
        .ok (doc',
          { success := true
            usedGift := min (3 : Int) 5
            usedPaid := 5 - min (3 : Int) 5
            remaining := 0 }) ∧
      doc'.gift_credit = 3 - min (3 : Int) 5 ∧
      doc'.paid_credit = 4 - (5 - min (3 : Int) 5) ∧
      doc'.gift_credit + doc'.paid_credit = 3 + 4 - 5 :=
  useCredits_consume_spec ⟨3, 4, none, 0⟩ 5 7 (by decide) (by decide) (by decide) (by decide)

/-- C3: for every existing balance and every amount with
gift + paid < amount, Consume fails with InsufficientCredit and performs no
mutation: the transaction aborts, so every field of the document (gift,
paid, last_gift_reset, updatedAt) is identical before and after. -/
theorem useCredits_insufficient_no_mutation (doc : CreditsDoc) (amount : Int) (now : Time)
    (h : doc.gift_credit + doc.paid_credit < amount) :
    useCredits (some doc) amount now = .error .insufficientCredit ∧
      useCreditsRun (some doc) amount now = some doc := by
  obtain ⟨g, p, l, u⟩ := doc
  simp only at h
  have herr : useCredits (some ⟨g, p, l, u⟩) amount now = .error .insufficientCredit := by
    simp only [useCredits]
    rw [if_pos h]
  exact ⟨herr, by simp only [useCreditsRun, herr]⟩

/-- Witness for C3 at gift = 3, paid = 1, amount = 5. -/
theorem useCredits_insufficient_no_mutation_witness :
    useCredits (some ⟨3, 1, none, 0⟩) 5 7 = .error .insufficientCredit ∧
      useCreditsRun (some ⟨3, 1, none, 0⟩) 5 7 = some ⟨3, 1, none, 0⟩ :=
  useCredits_insufficient_no_mutation ⟨3, 1, none, 0⟩ 5 7 (by decide)

/-- C4 counterexample: Consume invoked with no existing balance record does
fail with NotFound (useCredits throws the not-found HttpsError when the
credits document does not exist), contradicting the claim that it would
auto-create the balance and reserve NotFound for Refund. -/
theorem useCredits_missing_doc_not_found_counterexample :
    useCredits none 5 7 = .error .notFound := by rfl

/-- C4 amended: Consume invoked for a uid with no existing balance record
fails with NotFound exactly like Refund; auto-creation happens only on the
GetOrCreate paths (getOrCreateCreditsDoc, and the creation branches of
resetGiftCredit, clearGiftCredit and addPaidCredit), never inside Consume. -/
theorem useCredits_missing_doc_not_found (amount : Int) (now : Time) :
    useCredits none amount now = .error .notFound ∧
      refundCredits none amount now = .error .notFound ∧
      getOrCreateCreditsDoc none now =
        { gift_credit := 0, paid_credit := 0, last_gift_reset := none, updatedAt := now } :=
  ⟨rfl, rfl, rfl⟩

/-- C7: Refund fails with NotFound when no balance record exists; otherwise
it sets paid_credit to max 0 (paid_credit - amount), silently discarding any
excess over the current paid balance, and never changes gift_credit. -/
theorem refundCredits_clamped_never_touches_gift (doc : CreditsDoc) (amount : Int) (now : Time)
    (_hpos : 0 < amount) :
    refundCredits none amount now = .error .notFound ∧
      ∃ doc', refundCredits (some doc) amount now = .ok doc' ∧
        doc'.paid_credit = max 0 (doc.paid_credit - amount) ∧
        doc'.gift_credit = doc.gift_credit ∧
        doc'.last_gift_reset = doc.last_gift_reset := by
  exact ⟨rfl, ⟨_, rfl, rfl, rfl, rfl⟩⟩

/-- Witness for C7 at paid = 3, amount = 5: the refund clamps at 0. -/
theorem refundCredits_clamped_never_touches_gift_witness :
    refundCredits none 5 7 = .error .notFound ∧
      ∃ doc', refundCredits (some ⟨2, 3, none, 0⟩) 5 7 = .ok doc' ∧
        doc'.paid_credit = max 0 ((3 : Int) - 5) ∧
        doc'.gift_credit = 2 ∧
        doc'.last_gift_reset = none :=
  refundCredits_clamped_never_touches_gift ⟨2, 3, none, 0⟩ 5 7 (by decide)

/-- C8: ResetGift always sets gift_credit to the fixed constant
MONTHLY_GIFT_CREDIT = 10 regardless of the prior value, and running it twice
in a row yields exactly the state of running it once: no accumulation. -/
theorem resetGiftCredit_constant_idempotent (store : Option CreditsDoc) (now : Time) :
    (resetGiftCredit store now).gift_credit = MONTHLY_GIFT_CREDIT ∧
      MONTHLY_GIFT_CREDIT = 10 ∧
      resetGiftCredit (some (resetGiftCredit store now)) now = resetGiftCredit store now := by
  refine ⟨?_, rfl, ?_⟩ <;> cases store <;> rfl

/-- C10: Consume does not itself enforce the amount > 0 precondition: on an
existing balance with non-negative counters it raises InsufficientCredit iff
gift + paid < amount, so Consume with amount 0 succeeds, returns usedGift 0
and usedPaid 0, and leaves both counters (and last_gift_reset) unchanged,
stamping only updatedAt. -/
theorem useCredits_zero_amount_no_guard (doc : CreditsDoc) (now : Time)
    (hg : 0 ≤ doc.gift_credit) (hp : 0 ≤ doc.paid_credit) :
    useCredits (some doc) 0 now =
        .ok ({ doc with updatedAt := now },
          { success := true, usedGift := 0, usedPaid := 0, remaining := 0 }) ∧
      ∀ amount : Int,
        useCredits (some doc) amount now = .error .insufficientCredit ↔
          doc.gift_credit + doc.paid_credit < amount := by
  obtain ⟨g, p, l, u⟩ := doc
  simp only at hg hp
  constructor
  · simp only [useCredits]
    split_ifs with h1 h2 h3 h4 h5 <;> first | omega |
      (simp_all only [Except.ok.injEq, Prod.mk.injEq, CreditsDoc.mk.injEq,
        UseResult.mk.injEq, eq_self_iff_true, and_true, true_and] <;> omega)
  · intro amount
    dsimp only
    constructor
    · intro hres
      by_contra hlt
      push_neg at hlt
      simp only [useCredits] at hres
      rw [if_neg (by omega)] at hres
      exact Except.noConfusion hres
    · intro hlt
      simp only [useCredits]
      rw [if_pos (by omega)]

/-- Witness for C10 at gift = 3, paid = 4. -/
theorem useCredits_zero_amount_no_guard_witness :
    useCredits (some ⟨3, 4, some 2, 1⟩) 0 9 =
        .ok (⟨3, 4, some 2, 9⟩,
          { success := true, usedGift := 0, usedPaid := 0, remaining := 0 }) ∧
      ∀ amount : Int,
        useCredits (some ⟨3, 4, some 2, 1⟩) amount 9 = .error .insufficientCredit ↔
          (3 : Int) + 4 < amount :=
  useCredits_zero_amount_no_guard ⟨3, 4, some 2, 1⟩ 9 (by decide) (by decide)

/-! ## Claim theorems: the non-negativity invariant -/

/-- C9: starting from any balance with non-negative counters, every ledger
operation invoked under its spec precondition (positive amount where one is
required) leaves both gift_credit and paid_credit non-negative. -/
theorem applyOp_preserves_nonneg (store : Option CreditsDoc) (now : Time) (op : LedgerOp)
    (hinv : storeNonneg store) (hpre : opPre op) :
    storeNonneg (applyOp store now op) := by
  cases op with
  | getOrCreate =>
      cases store with
      | none => exact ⟨le_refl 0, le_refl 0⟩
      | some doc => exact hinv
  | consume amount =>
      cases store with
      | none => exact trivial
      | some doc =>
        obtain ⟨g, p, l, u⟩ := doc
        obtain ⟨hg, hp⟩ := hinv
        simp only at hg hp
        simp only [applyOp, useCreditsRun, useCredits]
        split_ifs with h1 h2 h3 h4 h5 <;>
          first | exact ⟨hg, hp⟩ | (refine ⟨?_, ?_⟩ <;> simp only <;> omega)
  | addPaid amount =>
      have hpre' : 0 < amount := hpre
      cases store with
      | none => exact ⟨le_refl 0, le_of_lt hpre'⟩
      | some doc =>
        obtain ⟨hg, hp⟩ := hinv
        exact ⟨hg, by simp only [applyOp, addPaidCredit]; omega⟩
  | resetGift =>
      cases store with
      | none =>
          exact ⟨by norm_num [resetGiftCredit, MONTHLY_GIFT_CREDIT], le_refl 0⟩
      | some doc =>
          exact ⟨by norm_num [resetGiftCredit, MONTHLY_GIFT_CREDIT], hinv.2⟩
  | clearGift =>
      cases store with
      | none => exact ⟨le_refl 0, le_refl 0⟩
      | some doc => exact ⟨le_refl 0, hinv.2⟩
  | refund amount =>
      cases store with
      | none => exact trivial
      | some doc =>
        exact ⟨hinv.1, by simp only [applyOp, refundCreditsRun, refundCredits]; omega⟩

/-- Witness for C9: consuming 5 from gift = 3, paid = 4 keeps both counters
non-negative. -/
theorem applyOp_preserves_nonneg_witness :
    storeNonneg (applyOp (some ⟨3, 4, none, 0⟩) 7 (.consume 5)) :=
  applyOp_preserves_nonneg (some ⟨3, 4, none, 0⟩) 7 (.consume 5)
    ⟨by decide, by decide⟩ (show (0 : Int) < 5 by decide)

/-! ## Claim theorems: the lifecycle coordinator -/

/-- C2: when one user update yields a non-empty activated set and a
non-empty expired set, the handler calls ResetGift exactly once and then
ClearGift exactly once, in that order, and the final gift_credit is 0
(expiry overrides activation); when both sets are empty, no ledger call is
made and the store is untouched. -/
theorem lifecycle_reset_then_clear (before after before2 after2 : Snapshot)
    (now now2 : Int) (store store2 : Option CreditsDoc) (tm : Time)
    (hA : activatedEntitlements before after now ≠ [])
    (hE : expiredEntitlements before after now ≠ [])
    (hA2 : activatedEntitlements before2 after2 now2 = [])
    (hE2 : expiredEntitlements before2 after2 now2 = []) :
    lifecycleCalls before after now = [LedgerCall.resetGift, LedgerCall.clearGift] ∧
      (∃ doc, runCalls store tm (lifecycleCalls before after now) = some doc ∧
        doc.gift_credit = 0) ∧
      lifecycleCalls before2 after2 now2 = [] ∧
      runCalls store2 tm (lifecycleCalls before2 after2 now2) = store2 := by
  have hcalls : lifecycleCalls before after now =
      [LedgerCall.resetGift, LedgerCall.clearGift] := by
    simp only [lifecycleCalls, if_pos hA, if_pos hE]
    rfl
  have hcalls2 : lifecycleCalls before2 after2 now2 = [] := by
    simp only [lifecycleCalls, hA2, hE2]
    rfl
  refine ⟨hcalls, ?_, hcalls2, by rw [hcalls2]; rfl⟩
  rw [hcalls]
  exact ⟨_, rfl, rfl⟩

/-- Witness for C2: one update activates A and expires B, a second update
changes nothing. -/
theorem lifecycle_reset_then_clear_witness :
    lifecycleCalls [("A", ⟨some false, none⟩), ("B", ⟨some true, none⟩)]
        [("A", ⟨some true, none⟩), ("B", ⟨some false, none⟩)] 0 =
      [LedgerCall.resetGift, LedgerCall.clearGift] ∧
      (∃ doc, runCalls (some ⟨7, 3, none, 0⟩) 9
          (lifecycleCalls [("A", ⟨some false, none⟩), ("B", ⟨some true, none⟩)]
            [("A", ⟨some true, none⟩), ("B", ⟨some false, none⟩)] 0) = some doc ∧
        doc.gift_credit = 0) ∧
      lifecycleCalls [("A", ⟨some true, none⟩)] [("A", ⟨some true, none⟩)] 0 = [] ∧
      runCalls (some ⟨7, 3, none, 0⟩) 9
          (lifecycleCalls [("A", ⟨some true, none⟩)] [("A", ⟨some true, none⟩)] 0) =
        some ⟨7, 3, none, 0⟩ :=
  lifecycle_reset_then_clear
    [("A", ⟨some false, none⟩), ("B", ⟨some true, none⟩)]
    [("A", ⟨some true, none⟩), ("B", ⟨some false, none⟩)]
    [("A", ⟨some true, none⟩)] [("A", ⟨some true, none⟩)]
    0 0 (some ⟨7, 3, none, 0⟩) (some ⟨7, 3, none, 0⟩) 9
    (by decide) (by decide) (by decide) (by decide)

/-! ## Claim theorems: the entitlement diff engine -/

/-- C5: for every snapshot pair and instant, the diff engine emits
Activated(k) exactly for the keys of after that were inactive before (or
absent) and are active now, emits Expired(k) exactly for the keys of after
with the opposite transition plus the keys removed from after whose before
record was active, and emits nothing for unchanged keys; the activity
predicate obeys the explicit is_active boolean when present and otherwise is
true iff expires_date is present and parses strictly later than now, with
missing or unparsable timestamps inactive (the predicate is total, so
nothing ever throws). -/
theorem entitlementDiff_characterization (before after : Snapshot) (now : Int) (k : String)
    (hndb : (before.map Prod.fst).Nodup) (hnda : (after.map Prod.fst).Nodup) :
    (k ∈ activatedEntitlements before after now ↔
        ∃ r, lookupEnt after k = some r ∧ isEntitlementActive r now = true ∧
          wasActiveBefore before now k = false) ∧
      (k ∈ expiredEntitlements before after now ↔
        (∃ r, lookupEnt after k = some r ∧ isEntitlementActive r now = false ∧
            wasActiveBefore before now k = true) ∨
          (∃ r, lookupEnt before k = some r ∧ lookupEnt after k = none ∧
            isEntitlementActive r now = true)) ∧
      (∀ e : EntitlementRecord, ∀ b : Bool, e.is_active = some b →
        isEntitlementActive e now = b) ∧
      (∀ e : EntitlementRecord, e.is_active = none →
        (isEntitlementActive e now = true ↔
          ∃ t, e.expires_date = some (some t) ∧ now < t)) := by
  refine ⟨?_, ?_, ?_, ?_⟩
  · rw [activatedEntitlements, mem_filter_keys hnda]
    simp only [lookupEnt]
    constructor
    · rintro ⟨v, hl, hp⟩
      simp only [Bool.and_eq_true, Bool.not_eq_true'] at hp
      exact ⟨v, hl, hp.1, hp.2⟩
    · rintro ⟨r, hl, h1, h2⟩
      refine ⟨r, hl, ?_⟩
      simp only [Bool.and_eq_true, Bool.not_eq_true']
      exact ⟨h1, h2⟩
  · rw [expiredEntitlements, List.mem_append, expiredFromAfter, expiredFromRemoval,
      mem_filter_keys hnda, mem_filter_keys hndb]
    simp only [lookupEnt]
    constructor
    · rintro (⟨v, hl, hp⟩ | ⟨v, hl, hp⟩)
      · simp only [Bool.and_eq_true, Bool.not_eq_true'] at hp
        exact Or.inl ⟨v, hl, hp.1, hp.2⟩
      · simp only [Bool.and_eq_true, Option.isNone_iff_eq_none] at hp
        exact Or.inr ⟨v, hl, hp.1, hp.2⟩
    · rintro (⟨r, hl, h1, h2⟩ | ⟨r, hl, h1, h2⟩)
      · refine Or.inl ⟨r, hl, ?_⟩
        simp only [Bool.and_eq_true, Bool.not_eq_true']
        exact ⟨h1, h2⟩
      · refine Or.inr ⟨r, hl, ?_⟩
        simp only [Bool.and_eq_true, Option.isNone_iff_eq_none]
        exact ⟨h1, h2⟩
  · intro e b he
    simp [isEntitlementActive, he]
  · intro e he
    rcases he2 : e.expires_date with _ | o
    · simp [isEntitlementActive, he, he2]
    · rcases o with _ | t
      · simp [isEntitlementActive, he, he2]
      · simp [isEntitlementActive, he, he2, decide_eq_true_iff]

/-- Witness for C5: key A moves from a past expiry to a future expiry and is
reported activated. -/
theorem entitlementDiff_characterization_witness :
    ("A" ∈ activatedEntitlements [("A", ⟨none, some (some 3)⟩)]
        [("A", ⟨none, some (some 9)⟩)] 5 ↔
        ∃ r, lookupEnt [("A", ⟨none, some (some 9)⟩)] "A" = some r ∧
          isEntitlementActive r 5 = true ∧
          wasActiveBefore [("A", ⟨none, some (some 3)⟩)] 5 "A" = false) ∧
      ("A" ∈ expiredEntitlements [("A", ⟨none, some (some 3)⟩)]
          [("A", ⟨none, some (some 9)⟩)] 5 ↔
        (∃ r, lookupEnt [("A", ⟨none, some (some 9)⟩)] "A" = some r ∧
            isEntitlementActive r 5 = false ∧
            wasActiveBefore [("A", ⟨none, some (some 3)⟩)] 5 "A" = true) ∨
          (∃ r, lookupEnt [("A", ⟨none, some (some 3)⟩)] "A" = some r ∧
            lookupEnt [("A", ⟨none, some (some 9)⟩)] "A" = none ∧
            isEntitlementActive r 5 = true)) ∧
      (∀ e : EntitlementRecord, ∀ b : Bool, e.is_active = some b →
        isEntitlementActive e 5 = b) ∧
      (∀ e : EntitlementRecord, e.is_active = none →
        (isEntitlementActive e 5 = true ↔
          ∃ t, e.expires_date = some (some t) ∧ (5 : Int) < t)) :=
  entitlementDiff_characterization [("A", ⟨none, some (some 3)⟩)]
    [("A", ⟨none, some (some 9)⟩)] 5 "A" (by decide) (by decide)

/-! ## Claim theorems: the purchase diff engine -/

theorem newPurchases_productId_mem {before after : PurchaseSnapshot} {e : NewPurchase}
    (h : e ∈ newPurchases before after) : e.productId ∈ after.map Prod.fst := by
  rw [newPurchases, List.mem_filterMap] at h
  obtain ⟨kv, hmem, hf⟩ := h
  by_cases hc : (lookupPurchases before kv.1).length < kv.2.length
  · rw [if_pos hc] at hf
    obtain ⟨latest, _, heq⟩ := Option.map_eq_some'.mp hf
    refine List.mem_map.mpr ⟨kv, hmem, ?_⟩
    rw [← heq]
  · rw [if_neg hc] at hf
    exact Option.noConfusion hf

theorem newPurchases_filter_eq {before : PurchaseSnapshot} {k : String}
    {l : List PurchaseRecord} :
    ∀ {after : PurchaseSnapshot}, (after.map Prod.fst).Nodup → (k, l) ∈ after →
      (newPurchases before after).filter (fun e => e.productId = k) =
        if (lookupPurchases before k).length < l.length then
          (l.getLast?.map fun latest =>
            ({ productId := k, purchaseId := identifierOf latest } : NewPurchase)).toList
        else [] := by
  intro after
  induction after with
  | nil =>
      intro _ hmem
      cases hmem
  | cons kv rest ih =>
      intro hnd hmem
      obtain ⟨k1, l1⟩ := kv
      rw [List.map_cons, List.nodup_cons] at hnd
      rw [newPurchases, List.filterMap_cons]
      rcases List.mem_cons.mp hmem with heq | hm
      · cases heq
        have hrest : (newPurchases before rest).filter (fun e => e.productId = k) = [] := by
          rw [List.filter_eq_nil_iff]
          intro e he hp
          have hmemk := newPurchases_productId_mem he
          rw [decide_eq_true_iff] at hp
          exact hnd.1 (hp ▸ hmemk)
        by_cases hc : (lookupPurchases before k).length < l.length
        · rw [if_pos hc, if_pos hc]
          rcases hlast : l.getLast? with _ | latest
          · rw [List.getLast?_eq_none_iff] at hlast
            subst hlast
            simp at hc
          · rw [Option.map_some', Option.toList_some]
            simp only [newPurchases] at hrest
            simp [List.filter_cons, hrest]
        · rw [if_neg hc, if_neg hc]
          simp only [newPurchases] at hrest
          simp [hrest]
      · have hk : k1 ≠ k := by
          intro hkk
          subst hkk
          exact hnd.1 (List.mem_map.mpr ⟨(k1, l), hm, rfl⟩)
        have htail := ih hnd.2 hm
        simp only [newPurchases] at htail
        by_cases hc1 : (lookupPurchases before k1).length < l1.length
        · rw [if_pos hc1]
          rcases hlast : l1.getLast? with _ | latest
          · simp [htail]
          · simp [List.filter_cons, hk, htail]
        · rw [if_neg hc1]
          simp [htail]

theorem processNewPurchases_paid (now : Time) :
    ∀ (evs : List NewPurchase) (doc : CreditsDoc),
      ∃ doc', processNewPurchases now (some doc) evs = some doc' ∧
        doc'.paid_credit = doc.paid_credit +
          NON_SUBSCRIPTION_PURCHASE_CREDIT * (evs.length : Int) ∧
        doc'.gift_credit = doc.gift_credit := by
  intro evs
  induction evs with
  | nil =>
      intro doc
      exact ⟨doc, rfl, by simp, rfl⟩
  | cons e rest ih =>
      intro doc
      obtain ⟨doc', hrun, hpaid, hgift⟩ := ih (addPaidCredit (some doc) NON_SUBSCRIPTION_PURCHASE_CREDIT now)
      refine ⟨doc', hrun, ?_, hgift⟩
      rw [hpaid]
      simp only [addPaidCredit, NON_SUBSCRIPTION_PURCHASE_CREDIT, List.length_cons]
      push_cast
      ring

theorem newPurchases_self_eq_nil {after : PurchaseSnapshot}
    (hnd : (after.map Prod.fst).Nodup) : newPurchases after after = [] := by
  rw [newPurchases, List.filterMap_eq_nil_iff]
  intro kv hmem
  obtain ⟨k1, l1⟩ := kv
  have hl : lookupKey after k1 = some l1 := (lookupKey_eq_some hnd).mpr hmem
  rw [if_neg]
  simp [lookupPurchases, hl]

/-- C6: for every product key of after, exactly one NewPurchase event is
emitted iff the after list is strictly longer than the before list (or
empty), even when it grew by more than one; the event carries the identifier
of the last element of the after list, preferring the id field and falling
back to store_transaction_id; each event causes exactly one AddPaid call of
NON_SUBSCRIPTION_PURCHASE_CREDIT = 10, so paid_credit grows by 10 per event;
and equal snapshots produce no events and no credit change. -/
theorem purchaseDiff_addPaid_spec (before after : PurchaseSnapshot) (k : String)
    (l : List PurchaseRecord) (doc : CreditsDoc) (now : Time)
    (hnd : (after.map Prod.fst).Nodup) (hmem : (k, l) ∈ after) :
    ((newPurchases before after).filter (fun e => e.productId = k) =
        if (lookupPurchases before k).length < l.length then
          (l.getLast?.map fun latest =>
            ({ productId := k, purchaseId := identifierOf latest } : NewPurchase)).toList
        else []) ∧
      ((newPurchases before after).countP (fun e => e.productId = k) =
        if (lookupPurchases before k).length < l.length then 1 else 0) ∧
      (∀ x : String, ∀ s : Option String, identifierOf ⟨some x, s⟩ = some x) ∧
      (∀ s : Option String, identifierOf ⟨none, s⟩ = s) ∧
      NON_SUBSCRIPTION_PURCHASE_CREDIT = 10 ∧
      (∃ doc', processNewPurchases now (some doc) (newPurchases before after) = some doc' ∧
        doc'.paid_credit = doc.paid_credit +
          NON_SUBSCRIPTION_PURCHASE_CREDIT * ((newPurchases before after).length : Int) ∧
        doc'.gift_credit = doc.gift_credit) ∧
      newPurchases after after = [] ∧
      processNewPurchases now (some doc) (newPurchases after after) = some doc := by
  have hfilter := @newPurchases_filter_eq before k l after hnd hmem
  have hself := newPurchases_self_eq_nil hnd
  refine ⟨hfilter, ?_, fun x s => rfl, fun s => rfl, rfl,
    processNewPurchases_paid now (newPurchases before after) doc, hself, ?_⟩
  · rw [List.countP_eq_length_filter, hfilter]
    by_cases hc : (lookupPurchases before k).length < l.length
    · rw [if_pos hc, if_pos hc]
      rcases hlast : l.getLast? with _ | latest
      · rw [List.getLast?_eq_none_iff] at hlast
        subst hlast
        simp at hc
      · rw [Option.map_some', Option.toList_some]
        rfl
    · rw [if_neg hc, if_neg hc]
      rfl
  · rw [hself]
    rfl

/-- Witness for C6: product P grows from one purchase to two; one event for
P is emitted carrying the identifier of the second purchase, and ten paid
credits are added. -/
theorem purchaseDiff_addPaid_spec_witness :
    ((newPurchases [("P", [⟨some "x", none⟩])]
          [("P", [⟨some "x", none⟩, ⟨none, some "y"⟩])]).filter
            (fun e => e.productId = "P") =
        if (lookupPurchases [("P", [⟨some "x", none⟩])] "P").length <
            [(⟨some "x", none⟩ : PurchaseRecord), ⟨none, some "y"⟩].length then
          ([(⟨some "x", none⟩ : PurchaseRecord), ⟨none, some "y"⟩].getLast?.map fun latest =>
            ({ productId := "P", purchaseId := identifierOf latest } : NewPurchase)).toList
        else []) ∧
      ((newPurchases [("P", [⟨some "x", none⟩])]
          [("P", [⟨some "x", none⟩, ⟨none, some "y"⟩])]).countP
            (fun e => e.productId = "P") =
        if (lookupPurchases [("P", [⟨some "x", none⟩])] "P").length <
            [(⟨some "x", none⟩ : PurchaseRecord), ⟨none, some "y"⟩].length then 1 else 0) ∧
      (∀ x : String, ∀ s : Option String, identifierOf ⟨some x, s⟩ = some x) ∧
      (∀ s : Option String, identifierOf ⟨none, s⟩ = s) ∧
      NON_SUBSCRIPTION_PURCHASE_CREDIT = 10 ∧
      (∃ doc', processNewPurchases 9 (some ⟨1, 2, none, 0⟩)
            (newPurchases [("P", [⟨some "x", none⟩])]
              [("P", [⟨some "x", none⟩, ⟨none, some "y"⟩])]) = some doc' ∧
        doc'.paid_credit = (2 : Int) +
          NON_SUBSCRIPTION_PURCHASE_CREDIT *
            (((newPurchases [("P", [⟨some "x", none⟩])]
              [("P", [⟨some "x", none⟩, ⟨none, some "y"⟩])]).length : Int)) ∧
        doc'.gift_credit = 1) ∧
      newPurchases [("P", [⟨some "x", none⟩, ⟨none, some "y"⟩])]
          [("P", [⟨some "x", none⟩, ⟨none, some "y"⟩])] = [] ∧
      processNewPurchases 9 (some ⟨1, 2, none, 0⟩)
          (newPurchases [("P", [⟨some "x", none⟩, ⟨none, some "y"⟩])]
            [("P", [⟨some "x", none⟩, ⟨none, some "y"⟩])]) = some ⟨1, 2, none, 0⟩ :=
  purchaseDiff_addPaid_spec [("P", [⟨some "x", none⟩])]
    [("P", [⟨some "x", none⟩, ⟨none, some "y"⟩])] "P"
    [⟨some "x", none⟩, ⟨none, some "y"⟩] ⟨1, 2, none, 0⟩ 9
    (by decide) (by decide)
